import Mathlib

/-
Shallow embedding of the self-directed multi-agent conversation orchestrator
(samples/experimental/self_directed_agents.py).

Agents are identified by their (immutable) name.  The post-construction
mutable `neighbors` attribute of each agent is modelled by an environment
`NeighborMap : AgentId -> Option (List AgentId)` giving, for each agent, the
current value of its `neighbors` attribute (`none` = the unset default left
by the constructor).

Python's `Optional` values are `Option`; a TypedDict key that may be absent
is an outer `Option` layer ("is the key present").  The randomness used by
`random.choice` is made explicit as a natural number `rand` that selects an
index into the choice list (`rand % length`), so theorems can quantify over
every possible draw.  Fallible code (assertion failures, `len(None)`,
`agents[0]` on an empty list) returns `Except`.
-/

abbrev AgentId := String

abbrev NeighborMap := AgentId → Option (List AgentId)

/-- A produced message: `source` is the identity of the agent that produced
it, `content` the (nullable) text. -/
structure Message where
  source : AgentId
  content : Option String
  deriving Repr, DecidableEq

/-- The typed context attached to each turn, as declared by the TypedDict
`MessageContextWithSpeakerSelection`: the `recipient` key is `Required`
(always present, value nullable: `none` is the no-recipient sentinel), the
`candidates` key is optional (`total=False`); the outer `Option` on
`candidates` records key presence, the inner one the stored value, which may
itself be Python `None` (it is whatever `suggest_candidates` returned).
`extra` carries every other key/value pair of the underlying dict. -/
structure MessageContextWithSpeakerSelection where
  recipient : Option AgentId
  candidates : Option (Option (List AgentId)) := none
  extra : List (String × String) := []
  deriving Repr, DecidableEq

/-- Modelled from the spec: the base `MessageContext` bag that a reply
backend may return alongside its message (`autogen.experimental.types`, not
under src/): a key/value bag in which the routing keys may or may not be
present. -/
structure MessageContext where
  recipient : Option (Option AgentId) := none
  candidates : Option (Option (List AgentId)) := none
  extra : List (String × String) := []
  deriving Repr, DecidableEq

/-- A chat history is the ordered list of (message, context) turns; contexts
are read through the `MessageContextWithSpeakerSelection` cast, as the
self-directed policies do. -/
abbrev ChatHistory := List (Message × MessageContextWithSpeakerSelection)

/-- Modelled from the spec: the closed enumeration of termination reasons
(`autogen.experimental.termination`, not under src/). -/
inductive TerminationReason
  | GOAL_REACHED
  | MAX_TURNS
  | ERROR
  deriving Repr, DecidableEq

/-- Modelled from the spec: the tagged termination verdict
(`autogen.experimental.termination`, not under src/). -/
inductive TerminationResult
  | Terminated (reason : TerminationReason) (explanation : String)
  | NotTerminated
  deriving Repr, DecidableEq

/-- Whether a termination verdict is terminal (used for the orchestrator's
cached `done` flag). -/
def TerminationResult.isTerminal : TerminationResult → Bool
  | .Terminated _ _ => true
  | .NotTerminated => false

/-- Python method `SelfDirectedTermination.check_termination`: if the history is non-empty
and the last context's `recipient` is `None`, the goal is reached; otherwise
not terminated.  (`len > 0` + `contexts[-1]` is rendered as `getLast?`.) -/
def check_termination (chat_history : ChatHistory) : TerminationResult :=
  match chat_history.getLast? with
  | some (_, last_context) =>
      match last_context.recipient with
      | none => .Terminated .GOAL_REACHED "No recipient"
      | some _ => .NotTerminated
  | none => .NotTerminated

/-- How `SelfDirectedSpeakerSelection.select_speaker` can fail: the
`assert False` on a null recipient (the spec's `InvariantViolation`), and
`agents[0]` on an empty roster. -/
inductive SelectSpeakerError
  | InvariantViolation
  | IndexError
  deriving Repr, DecidableEq

/-- Python method `SelfDirectedSpeakerSelection.select_speaker`: on a non-empty history,
return the last context's recipient (failing the `assert` if it is null);
on an empty history return the first agent of the roster.  The hint is
always `none`. -/
def select_speaker (agents : List AgentId) (chat_history : ChatHistory) :
    Except SelectSpeakerError (AgentId × Option String) :=
  match chat_history.getLast? with
  | some (_, last_context) =>
      match last_context.recipient with
      | none => .error .InvariantViolation
      | some recipient => .ok (recipient, none)
  | none =>
      match agents with
      | [] => .error .IndexError
      | a :: _ => .ok (a, none)

/-- Python method `SelfDirectedAgent.select_recipient`: a single candidate is returned
directly; otherwise `random.choice` picks from `candidates + [None]` — the
draw is the index `rand % length`. -/
def select_recipient (rand : Nat) (chat_history : ChatHistory)
    (candidates : List AgentId) : Option AgentId :=
  if h : candidates.length = 1 then
    some (candidates.get ⟨0, by omega⟩)
  else
    let new_candidates := candidates.map some ++ [none]
    new_candidates.getD (rand % new_candidates.length) none

/-- Python method `SelfDirectedAgent.suggest_candidates`: empty pool when there is no
recipient, otherwise the recipient's `neighbors` attribute (whose raw value
may be Python `None` if it was never set). -/
def suggest_candidates (env : NeighborMap) (chat_history : ChatHistory)
    (recipient : Option AgentId) : Option (List AgentId) :=
  match recipient with
  | none => some []
  | some r => env r

/-- Modelled from the spec: `GenerateReplyResult`
(`autogen.experimental.types`, not under src/) — the inner backend returns
either a bare message or a (message, partial context) pair; the source
distinguishes the two with `match response: case (_, _)`. -/
inductive GenerateReplyResult
  | messageOnly (message : Message)
  | withContext (message : Message) (context : MessageContext)
  deriving Repr, DecidableEq

/-- How `SelfDirectedAgent.generate_reply` can fail: the
`assert self.neighbors is not None`, and the `len(None)` TypeError when the
last context stored `candidates = None`. -/
inductive GenerateReplyError
  | AssertionError
  | TypeError
  deriving Repr, DecidableEq

/-- The candidate pool computed at the top of `generate_reply`: the last
context's `candidates` value when that key is present, else the agent's own
(already asserted non-null) `neighbors`. -/
def candidatePool (nbrs : List AgentId) (chat_history : ChatHistory) :
    Option (List AgentId) :=
  match chat_history.getLast? with
  | some (_, last_context) =>
      match last_context.candidates with
      | some v => v
      | none => some nbrs
  | none => some nbrs

/-- Python method `SelfDirectedAgent.generate_reply`.  `self_neighbors` is the calling
agent's `neighbors` attribute, `response` the inner backend's result, `rand`
the random draw handed to `select_recipient`.  After asserting `neighbors`
non-null and resolving the candidate pool, the recipient and next-turn
candidates are stamped onto the backend's context (overwriting any routing
keys it set, keeping its other keys); a bare message gets a fresh context. -/
def generate_reply (env : NeighborMap) (self_neighbors : Option (List AgentId))
    (rand : Nat) (response : GenerateReplyResult) (chat_history : ChatHistory) :
    Except GenerateReplyError (Message × MessageContextWithSpeakerSelection) :=
  match self_neighbors with
  | none => .error .AssertionError
  | some nbrs =>
      match candidatePool nbrs chat_history with
      | none => .error .TypeError
      | some cs =>
          let recipient := select_recipient rand chat_history cs
          let suggested := suggest_candidates env chat_history recipient
          match response with
          | .withContext reply context_new =>
              .ok (reply, ⟨recipient, some suggested, context_new.extra⟩)
          | .messageOnly reply =>
              .ok (reply, ⟨recipient, some suggested, []⟩)

/-- Modelled from the spec: the orchestrator's state — the mutable history
and the cached `done` flag (GroupChat, not under src/). -/
structure OrchestratorState where
  history : ChatHistory
  done : Bool
  deriving Repr, DecidableEq

/-- Modelled from the spec: one `GroupChat.step` driven by the self-directed
policies — with `done` false, ask `select_speaker` for the next agent,
invoke that agent's `generate_reply` (its `neighbors` attribute is
`env speaker`; the backend response and random draw are arbitrary; per the
spec's data model the backend's message carries the invoked agent's identity
as `source`), append the produced turn, and recompute the cached `done` via
`check_termination`. -/
inductive step (env : NeighborMap) (roster : List AgentId) :
    OrchestratorState → OrchestratorState → Prop
  | mk : ∀ (s : OrchestratorState) (speaker : AgentId) (hint : Option String)
      (rand : Nat) (response : GenerateReplyResult) (msg : Message)
      (ctx : MessageContextWithSpeakerSelection),
      s.done = false →
      select_speaker roster s.history = .ok (speaker, hint) →
      generate_reply env (env speaker) rand response s.history = .ok (msg, ctx) →
      msg.source = speaker →
      step env roster s
        ⟨s.history ++ [(msg, ctx)],
         (check_termination (s.history ++ [(msg, ctx)])).isTerminal⟩

/-- The empty conversation: no turns yet, not done. -/
def initialState : OrchestratorState := ⟨[], false⟩

/-- States the orchestrator can reach from the empty conversation. -/
inductive reachable (env : NeighborMap) (roster : List AgentId) :
    OrchestratorState → Prop
  | init : reachable env roster initialState
  | next : ∀ {s s'}, reachable env roster s → step env roster s s' →
      reachable env roster s'

/-! Helper lemmas shared by several theorems below. -/

/-- Choosing from an empty candidate pool always yields the no-recipient
sentinel, whatever the random draw: the choice list collapses to `[None]`. -/
theorem select_recipient_nil (rand : Nat) (hist : ChatHistory) :
    select_recipient rand hist [] = none := by
  simp [select_recipient, Nat.mod_one]

/-- Claim C1: `check_termination` returns
`Terminated GOAL_REACHED "No recipient"` exactly when the history is
non-empty and its last context's `recipient` is the no-recipient sentinel;
in every other case (the empty history included) it returns
`NotTerminated`. -/
theorem check_termination_spec (h : ChatHistory) :
    (check_termination h =
        TerminationResult.Terminated TerminationReason.GOAL_REACHED "No recipient" ↔
      ∃ m ctx, h.getLast? = some (m, ctx) ∧ ctx.recipient = none) ∧
    ((¬ ∃ m ctx, h.getLast? = some (m, ctx) ∧ ctx.recipient = none) →
      check_termination h = TerminationResult.NotTerminated) := by
  rcases hl : h.getLast? with _ | ⟨m, ctx⟩
  · simp [check_termination, hl]
  · rcases hr : ctx.recipient with _ | r
    · simp only [check_termination, hl, hr]
      constructor
      · simp only [true_iff]
        exact ⟨m, ctx, rfl, hr⟩
      · intro hcon
        exact absurd ⟨m, ctx, rfl, hr⟩ hcon
    · simp [check_termination, hl, hr]

/-- Concrete instance of the C1 theorem: a one-turn history whose context
nominates no recipient is judged terminated. -/
theorem check_termination_spec_witness :
    check_termination [(⟨"A", none⟩, ⟨none, none, []⟩)] =
      TerminationResult.Terminated TerminationReason.GOAL_REACHED "No recipient" :=
  (check_termination_spec [(⟨"A", none⟩, ⟨none, none, []⟩)]).1.mpr
    ⟨⟨"A", none⟩, ⟨none, none, []⟩, rfl, rfl⟩

/-- Claim C3: with a non-empty roster, `select_speaker` returns the first
configured agent (no hint) on an empty history, and the last context's
non-null recipient (no hint) on a non-empty history. -/
theorem select_speaker_spec (agents : List AgentId) (hne : agents ≠ [])
    (hist : ChatHistory) :
    (hist = [] → select_speaker agents hist = .ok (agents.head hne, none)) ∧
    (∀ m ctx r, hist.getLast? = some (m, ctx) → ctx.recipient = some r →
      select_speaker agents hist = .ok (r, none)) := by
  constructor
  · rintro rfl
    rcases agents with _ | ⟨a, rest⟩
    · exact absurd rfl hne
    · rfl
  · intro m ctx r hl hr
    simp [select_speaker, hl, hr]

/-- Concrete instance of the C3 theorem: empty history yields the first
agent of the roster; a history ending with `recipient = "B"` yields "B". -/
theorem select_speaker_spec_witness :
    select_speaker ["A", "B"] [] = .ok ("A", none) ∧
    select_speaker ["A", "B"] [(⟨"A", none⟩, ⟨some "B", none, []⟩)] = .ok ("B", none) :=
  ⟨(select_speaker_spec ["A", "B"] (by simp) []).1 rfl,
   (select_speaker_spec ["A", "B"] (by simp) [(⟨"A", none⟩, ⟨some "B", none, []⟩)]).2
     ⟨"A", none⟩ ⟨some "B", none, []⟩ "B" rfl rfl⟩

/-- Claim C4: on a singleton candidate list (every length-one list is `[c]`
for some `c`), `select_recipient` returns that candidate, and the result
does not depend on the random draw (nor on the history). -/
theorem select_recipient_single (rand rand' : Nat) (hist hist' : ChatHistory)
    (c : AgentId) :
    select_recipient rand hist [c] = some c ∧
    select_recipient rand hist [c] = select_recipient rand' hist' [c] :=
  ⟨rfl, rfl⟩

/-- Claim C5: `select_recipient` on an empty candidate list returns the
no-recipient sentinel for every random draw, and a turn produced from an
empty candidate pool stamps `recipient = none`, so the termination check on
the extended history fires immediately after that agent's turn. -/
theorem select_recipient_empty (rand : Nat) (hist : ChatHistory) :
    select_recipient rand hist [] = none ∧
    (∀ (env : NeighborMap) nbrs resp h msg
        (ctx : MessageContextWithSpeakerSelection),
      candidatePool nbrs h = some [] →
      generate_reply env (some nbrs) rand resp h = .ok (msg, ctx) →
      ctx.recipient = none ∧
      check_termination (h ++ [(msg, ctx)]) =
        TerminationResult.Terminated TerminationReason.GOAL_REACHED "No recipient") := by
  refine ⟨select_recipient_nil rand hist, ?_⟩
  intro env nbrs resp h msg ctx hp hok
  have hrec : ctx.recipient = none := by
    rcases resp with m | ⟨m, pc⟩ <;>
      simp [generate_reply, hp, select_recipient_nil] at hok <;>
      rcases hok with ⟨h1, h2⟩ <;> rw [← h2]
  refine ⟨hrec, ?_⟩
  simp [check_termination, List.getLast?_concat, hrec]

/-- Concrete instance of the C5 theorem: a lone agent with an empty
neighbor list produces a turn with no recipient, and the one-turn history is
judged terminated. -/
theorem select_recipient_empty_witness :
    select_recipient 0 [] [] = none ∧
    (⟨none, some (some []), []⟩ : MessageContextWithSpeakerSelection).recipient = none ∧
    check_termination [(⟨"A", none⟩, ⟨none, some (some []), []⟩)] =
      TerminationResult.Terminated TerminationReason.GOAL_REACHED "No recipient" :=
  ⟨(select_recipient_empty 0 []).1,
   (select_recipient_empty 0 []).2 (fun _ => none) [] (.messageOnly ⟨"A", none⟩) []
     ⟨"A", none⟩ ⟨none, some (some []), []⟩ rfl rfl⟩

/-- Claim C6: `suggest_candidates` returns the empty pool when the recipient
is the no-recipient sentinel, and exactly the recipient's `neighbors`
attribute otherwise — for every history and every environment. -/
theorem suggest_candidates_spec (env : NeighborMap) (hist : ChatHistory) :
    suggest_candidates env hist none = some [] ∧
    ∀ r, suggest_candidates env hist (some r) = env r :=
  ⟨rfl, fun _ => rfl⟩

/-- Claim C8: whenever the last context of a non-empty history carries a
null recipient, `select_speaker` does not return a speaker but fails with
the invariant violation (the `assert False` branch). -/
theorem select_speaker_null_recipient (agents : List AgentId) (hist : ChatHistory)
    (m : Message) (ctx : MessageContextWithSpeakerSelection)
    (hlast : hist.getLast? = some (m, ctx)) (hrec : ctx.recipient = none) :
    select_speaker agents hist = .error .InvariantViolation := by
  simp [select_speaker, hlast, hrec]

/-- Concrete instance of the C8 theorem: a one-turn history with a null
recipient makes `select_speaker` fail fast. -/
theorem select_speaker_null_recipient_witness :
    select_speaker ["A"] [(⟨"A", none⟩, ⟨none, none, []⟩)] =
      .error SelectSpeakerError.InvariantViolation :=
  select_speaker_null_recipient ["A"] [(⟨"A", none⟩, ⟨none, none, []⟩)]
    ⟨"A", none⟩ ⟨none, none, []⟩ rfl rfl

/-- Environment used by the concrete C7 instance: agent "B" has the single
neighbor "C". -/
def exMergeEnv : NeighborMap := fun a => if a = "B" then some ["C"] else none

/-- Claim C7: when the inner backend returns a (message, context) pair,
`generate_reply` merges rather than overwrites — in the returned context the
`recipient` key equals `select_recipient`'s result and the `candidates` key
equals `suggest_candidates`'s result (the routing fields win, whatever
routing keys the backend set), while every other key/value pair of the
backend's partial context (`extra`) is preserved unchanged, as is the
message itself. -/
theorem generate_reply_merge (env : NeighborMap) (nbrs : List AgentId) (rand : Nat)
    (reply : Message) (pc : MessageContext) (hist : ChatHistory)
    (msg : Message) (ctx : MessageContextWithSpeakerSelection)
    (hok : generate_reply env (some nbrs) rand (.withContext reply pc) hist =
      .ok (msg, ctx)) :
    ∃ cs, candidatePool nbrs hist = some cs ∧
      msg = reply ∧
      ctx.recipient = select_recipient rand hist cs ∧
      ctx.candidates = some (suggest_candidates env hist (select_recipient rand hist cs)) ∧
      ctx.extra = pc.extra := by
  rcases hp : candidatePool nbrs hist with _ | cs
  · simp [generate_reply, hp] at hok
  · simp only [generate_reply, hp] at hok
    rcases hok with ⟨h1, h2⟩
    exact ⟨cs, rfl, rfl, rfl, rfl, rfl⟩

/-- Concrete instance of the C7 theorem: the backend context
`{recipient: "X", candidates: None, "k": "v"}` has its routing keys
overwritten with the computed ones while `"k": "v"` survives. -/
theorem generate_reply_merge_witness :
    ∃ cs, candidatePool ["B"] [] = some cs ∧
      (⟨"A", some "r"⟩ : Message) = ⟨"A", some "r"⟩ ∧
      (⟨some "B", some (some ["C"]), [("k", "v")]⟩ :
          MessageContextWithSpeakerSelection).recipient = select_recipient 0 [] cs ∧
      (⟨some "B", some (some ["C"]), [("k", "v")]⟩ :
          MessageContextWithSpeakerSelection).candidates =
        some (suggest_candidates exMergeEnv [] (select_recipient 0 [] cs)) ∧
      (⟨some "B", some (some ["C"]), [("k", "v")]⟩ :
          MessageContextWithSpeakerSelection).extra =
        (⟨some (some "X"), some none, [("k", "v")]⟩ : MessageContext).extra :=
  generate_reply_merge exMergeEnv ["B"] 0 ⟨"A", some "r"⟩
    ⟨some (some "X"), some none, [("k", "v")]⟩ [] ⟨"A", some "r"⟩
    ⟨some "B", some (some ["C"]), [("k", "v")]⟩ rfl

/-- Claim C9: with the `neighbors` attribute still at its constructor
default (`None`), every call of `generate_reply` fails with the assertion
error, whatever backend response, history or random draw; once `neighbors`
is set, the assertion-failure outcome is unreachable. -/
theorem generate_reply_neighbors_assert (env : NeighborMap) (rand : Nat)
    (resp : GenerateReplyResult) (hist : ChatHistory) :
    generate_reply env none rand resp hist = .error .AssertionError ∧
    ∀ nbrs, generate_reply env (some nbrs) rand resp hist ≠
      .error GenerateReplyError.AssertionError := by
  refine ⟨rfl, fun nbrs h => ?_⟩
  rcases hp : candidatePool nbrs hist with _ | cs
  · simp [generate_reply, hp] at h
  · rcases resp with m | ⟨m, pc⟩ <;> simp [generate_reply, hp] at h

/-- Concrete instance of the C9 theorem: unset neighbors make the call fail;
neighbors set to the empty list do not trigger the assertion. -/
theorem generate_reply_neighbors_assert_witness :
    generate_reply (fun _ => none) none 0 (.messageOnly ⟨"A", none⟩) [] =
        .error GenerateReplyError.AssertionError ∧
    generate_reply (fun _ => none) (some []) 0 (.messageOnly ⟨"A", none⟩) [] ≠
        .error GenerateReplyError.AssertionError :=
  ⟨(generate_reply_neighbors_assert (fun _ => none) 0 (.messageOnly ⟨"A", none⟩) []).1,
   (generate_reply_neighbors_assert (fun _ => none) 0 (.messageOnly ⟨"A", none⟩) []).2 []⟩

/-- Claim C10: every successful `generate_reply` result carries both routing
keys: the `recipient` key is present by the very type of the returned
context (it is a required field, possibly holding the sentinel), and the
optional `candidates` key is always filled in (`some` of the suggested
pool), never omitted. -/
theorem generate_reply_routing_keys (env : NeighborMap)
    (sn : Option (List AgentId)) (rand : Nat) (resp : GenerateReplyResult)
    (hist : ChatHistory) (msg : Message)
    (ctx : MessageContextWithSpeakerSelection)
    (hok : generate_reply env sn rand resp hist = .ok (msg, ctx)) :
    (∃ rv : Option AgentId, ctx.recipient = rv) ∧
    ∃ cv, ctx.candidates = some cv := by
  refine ⟨⟨ctx.recipient, rfl⟩, ?_⟩
  rcases sn with _ | nbrs
  · simp [generate_reply] at hok
  · rcases hp : candidatePool nbrs hist with _ | cs
    · simp [generate_reply, hp] at hok
    · rcases resp with m | ⟨m, pc⟩ <;>
        · simp only [generate_reply, hp] at hok
          rcases hok with ⟨h1, h2⟩
          exact ⟨suggest_candidates env hist (select_recipient rand hist cs), rfl⟩

/-- Concrete instance of the C10 theorem: a successful turn of an agent with
an empty neighbor list stamps both routing keys. -/
theorem generate_reply_routing_keys_witness :
    (∃ rv : Option AgentId,
      (⟨none, some (some []), []⟩ : MessageContextWithSpeakerSelection).recipient = rv) ∧
    ∃ cv,
      (⟨none, some (some []), []⟩ : MessageContextWithSpeakerSelection).candidates =
        some cv :=
  generate_reply_routing_keys (fun _ => none) (some []) 0
    (.messageOnly ⟨"A", none⟩) [] ⟨"A", none⟩ ⟨none, some (some []), []⟩ rfl

/-- The adjacency relation the routing invariant asserts between two
consecutive turns: the earlier turn's context nominates exactly the agent
that produced the later turn's message. -/
def routingRel (a b : Message × MessageContextWithSpeakerSelection) : Prop :=
  a.2.recipient = some b.1.source

/-- When `select_speaker` succeeds on a non-empty history, the speaker it
returns is exactly the recipient the last context nominated. -/
theorem select_speaker_ok_recipient (agents : List AgentId) (hist : ChatHistory)
    (m : Message) (c : MessageContextWithSpeakerSelection) (spk : AgentId)
    (hint : Option String) (hl : hist.getLast? = some (m, c))
    (hsel : select_speaker agents hist = .ok (spk, hint)) :
    c.recipient = some spk := by
  rcases hc : c.recipient with _ | r
  · simp [select_speaker, hl, hc] at hsel
  · simp only [select_speaker, hl, hc, Except.ok.injEq, Prod.mk.injEq] at hsel
    rw [hsel.1]

/-- Every history the orchestrator can reach is a `routingRel`-chain: each
appended turn is produced by the agent the previous context nominated,
because `select_speaker` returns exactly that nominee. -/
theorem reachable_history_chain (env : NeighborMap) (roster : List AgentId)
    (s : OrchestratorState) (hr : reachable env roster s) :
    List.Chain' routingRel s.history := by
  induction hr with
  | init => simp [initialState]
  | next hr hstep ih =>
      rename_i t t'
      rcases hstep with ⟨speaker, hint, rand, resp, msg, ctx, hdone, hsel, hgen, hsrc⟩
      refine ih.append (List.chain'_singleton _) ?_
      intro x hx y hy
      simp only [List.head?_cons, Option.mem_def, Option.some.injEq] at hy
      subst hy
      rcases hgl : t.history.getLast? with _ | p
      · rw [hgl] at hx; simp at hx
      · rw [hgl] at hx
        simp only [Option.mem_def, Option.some.injEq] at hx
        subst hx
        show p.2.recipient = some msg.source
        rw [hsrc]
        exact select_speaker_ok_recipient roster t.history p.1 p.2 speaker hint hgl hsel

/-- Claim C2: in every state reachable by the self-directed orchestrator
from the empty conversation, for every adjacent pair of turns i and i+1 of
the history, the context of turn i stores as recipient exactly the agent
whose message is turn i+1 (the spec's routing invariant). -/
theorem routing_invariant (env : NeighborMap) (roster : List AgentId)
    (s : OrchestratorState) (hr : reachable env roster s)
    (i : Nat) (hi : i + 1 < s.history.length) :
    (s.history.get ⟨i, by omega⟩).2.recipient =
      some ((s.history.get ⟨i + 1, hi⟩).1.source) := by
  have hc := reachable_history_chain env roster s hr
  have hg := List.chain'_iff_get.mp hc i (by omega)
  simpa [routingRel] using hg

/-- Neighbor graph of the concrete two-agent run used to instantiate the C2
theorem: "A" and "B" point at each other. -/
def exEnv : NeighborMap :=
  fun a => if a = "A" then some ["B"] else if a = "B" then some ["A"] else none

/-- Roster of the concrete run. -/
def exRoster : List AgentId := ["A", "B"]

/-- First turn of the concrete run: "A" speaks and nominates "B". -/
def exTurn1 : Message × MessageContextWithSpeakerSelection :=
  (⟨"A", some "m1"⟩, ⟨some "B", some (some ["A"]), []⟩)

/-- Second turn of the concrete run: "B" speaks and nominates "A". -/
def exTurn2 : Message × MessageContextWithSpeakerSelection :=
  (⟨"B", some "m2"⟩, ⟨some "A", some (some ["B"]), []⟩)

/-- The state after the two concrete turns. -/
def exState : OrchestratorState := ⟨[exTurn1, exTurn2], false⟩

/-- The two-turn state is reachable: two orchestrator steps from the empty
conversation, with singleton candidate pools forcing each nomination. -/
theorem exState_reachable : reachable exEnv exRoster exState :=
  reachable.next
    (reachable.next reachable.init
      (step.mk initialState "A" none 0 (.messageOnly ⟨"A", some "m1"⟩)
        ⟨"A", some "m1"⟩ ⟨some "B", some (some ["A"]), []⟩ rfl rfl rfl rfl))
    (step.mk ⟨[exTurn1], false⟩ "B" none 0 (.messageOnly ⟨"B", some "m2"⟩)
      ⟨"B", some "m2"⟩ ⟨some "A", some (some ["B"]), []⟩ rfl rfl rfl rfl)

/-- Concrete instance of the C2 theorem: in the reachable two-turn run, turn
1's recipient is exactly turn 2's speaker. -/
theorem routing_invariant_witness :
    (exState.history.get ⟨0, by decide⟩).2.recipient =
      some ((exState.history.get ⟨1, by decide⟩).1.source) :=
  routing_invariant exEnv exRoster exState exState_reachable 0 (by decide)
